import Mathlib

/-!
Verification of the pod-translation / lifecycle-adapter layer of the
virtual-kubelet "poc" provider (providers/poc).

The Kubernetes API objects used by the provider are shallowly embedded as
Lean structures whose field names mirror the Go struct fields (capitalised,
as in Go).  The remote cluster client `rc` (a `kubernetes.Interface` global
in the Go code) is embedded as a `RemoteCluster` record of the operations
the provider invokes on it; each adapter function takes it as an explicit
argument.  Go's `(value, error)` returns become `value × Option Err`.
-/

namespace Poc

/-- Mirrors `metav1.TypeMeta`. -/
structure TypeMeta where
  Kind : String := ""
  APIVersion : String := ""
deriving Repr, DecidableEq

/-- Mirrors the fields of `metav1.ObjectMeta` the provider touches.
The annotations map is an association list. -/
structure ObjectMeta where
  Namespace : String := ""
  Name : String := ""
  Annotations : List (String × String) := []
  DeletionGracePeriodSeconds : Option Int := none
deriving Repr, DecidableEq

/-- Mirrors `corev1.EnvVar`. -/
structure EnvVar where
  Name : String := ""
  Value : String := ""
deriving Repr, DecidableEq

/-- Mirrors `corev1.ContainerPort`. -/
structure ContainerPort where
  Name : String := ""
  HostPort : Int := 0
  ContainerPort : Int := 0
  Protocol : String := ""
deriving Repr, DecidableEq

/-- Mirrors `corev1.ResourceRequirements`; quantities kept as strings. -/
structure ResourceRequirements where
  Limits : List (String × String) := []
  Requests : List (String × String) := []
deriving Repr, DecidableEq

/-- Mirrors `corev1.VolumeMount` (a container field NOT copied by the
translation whitelist). -/
structure VolumeMount where
  Name : String := ""
  MountPath : String := ""
deriving Repr, DecidableEq

/-- Mirrors `corev1.SecurityContext` (not copied by the whitelist). -/
structure SecurityContext where
  Privileged : Option Bool := none
  RunAsUser : Option Int := none
deriving Repr, DecidableEq

/-- Mirrors `corev1.Probe` (not copied by the whitelist). -/
structure Probe where
  InitialDelaySeconds : Int := 0
  PeriodSeconds : Int := 0
deriving Repr, DecidableEq

/-- Mirrors `corev1.Container`: the eight whitelisted fields the translation
copies, plus representative non-whitelisted fields (volume mounts, probes,
security context, image pull policy, stdin/tty) whose Go zero values are the
Lean field defaults. -/
structure Container where
  Name : String := ""
  Image : String := ""
  Command : List String := []
  Args : List String := []
  Resources : ResourceRequirements := {}
  Ports : List ContainerPort := []
  Env : List EnvVar := []
  WorkingDir : String := ""
  VolumeMounts : List VolumeMount := []
  LivenessProbe : Option Probe := none
  SecurityContext : Option SecurityContext := none
  ImagePullPolicy : String := ""
  Stdin : Bool := false
  TTY : Bool := false
deriving Repr, DecidableEq

/-- Mirrors `corev1.Volume` (only its name matters here). -/
structure Volume where
  Name : String := ""
deriving Repr, DecidableEq

/-- Mirrors the fields of `corev1.PodSpec` the provider touches. -/
structure PodSpec where
  Volumes : List Volume := []
  Containers : List Container := []
  RestartPolicy : String := ""
  NodeName : String := ""
  ServiceAccountName : String := ""
deriving Repr, DecidableEq

/-- Mirrors the fields of `corev1.PodStatus` the provider touches. -/
structure PodStatus where
  Phase : String := ""
  Message : String := ""
  HostIP : String := ""
  PodIP : String := ""
deriving Repr, DecidableEq

/-- Go constant `corev1.PodUnknown`. -/
def PodUnknown : String := "Unknown"

/-- Mirrors `corev1.Pod`.  Go promotes the embedded `ObjectMeta` fields
(`pod.Namespace` means `pod.ObjectMeta.Namespace`); accessors below mirror
that promotion. -/
structure Pod where
  TypeMeta : TypeMeta := {}
  ObjectMeta : ObjectMeta := {}
  Spec : PodSpec := {}
  Status : PodStatus := {}
deriving Repr, DecidableEq

def Pod.Namespace (p : Pod) : String := p.ObjectMeta.Namespace

def Pod.Name (p : Pod) : String := p.ObjectMeta.Name

/-- Errors.  The first three constructors model raw errors coming back from
the remote Kubernetes API (`k8s.io/apimachinery` status errors: not-found,
network, unauthorized); `errdefsNotFound` models the distinct error value
built by `errdefs.NotFoundf` in the virtual-kubelet error package. -/
inductive Err where
  | apiNotFound (msg : String)
  | apiNetwork (msg : String)
  | apiUnauthorized (msg : String)
  | errdefsNotFound (msg : String)
deriving Repr, DecidableEq

/-- Mirrors `errdefs.IsNotFound`: true exactly for error values constructed
by `errdefs.NotFoundf` (a raw remote API not-found error does not satisfy
the errdefs NotFound interface). -/
def Err.IsNotFound : Err → Bool
  | .errdefsNotFound _ => true
  | _ => false

/-- Mirrors `metav1.DeleteOptions` (only the grace period field). -/
structure DeleteOptions where
  GracePeriodSeconds : Option Int := none
deriving Repr, DecidableEq

/-- Mirrors `metav1.ListOptions` (only the field selector). -/
structure ListOptions where
  FieldSelector : String := ""
deriving Repr, DecidableEq

/-- The remote cluster client (the Go global `rc kubernetes.Interface`),
embedded as the record of operations the provider invokes on it.
`getPod ns name` mirrors `rc.CoreV1().Pods(ns).Get(name, GetOptions{})`:
like the real client it always yields a pod value (zero-valued on failure)
together with an optional error.  Likewise `updatePod`, `deletePod`,
`listPods` mirror `Update`, `Delete`, `List`. -/
structure RemoteCluster where
  getPod : String → String → Pod × Option Err
  updatePod : String → Pod → Pod × Option Err
  deletePod : String → String → DeleteOptions → Option Err
  listPods : String → ListOptions → List Pod × Option Err

/-- Go constant `REMOTE_POD_ANNOTATION_NAME = "virtual-kube-type"`
(renamed here; the ownership-marker annotation key). -/
def ownershipMarkerKey : String := "virtual-kube-type"

/-- Go constant `REMOTE_POD_ANNOTATION_VALUE = "poc"`. -/
def ownershipMarkerValue : String := "poc"

/-- Embeds `TranslateToRemotePod` (providers/poc, lines 44-88).
The Go code discards the lookup error (`rpod, _ = ...Get(...)`), branches on
`len(rpod.Name) == 0`, and on the empty-name branch builds a fresh remote
pod: ownership-marker annotation, per-container whitelist copy, empty
volumes, copied namespace/name/restart policy.  It always returns `nil`
as its own error. -/
def TranslateToRemotePod (rc : RemoteCluster) (pod : Pod) : Pod × Option Err :=
  let rpod := (rc.getPod pod.Namespace pod.Name).1
  if rpod.Name.length = 0 then
    let annots : List (String × String) := [(ownershipMarkerKey, ownershipMarkerValue)]
    let containers : List Container := pod.Spec.Containers.map (fun c =>
      { Name := c.Name
        Image := c.Image
        Command := c.Command
        Args := c.Args
        Resources := c.Resources
        Ports := c.Ports
        Env := c.Env
        WorkingDir := c.WorkingDir })
    ({ TypeMeta := { Kind := "Pod", APIVersion := "v1" }
       ObjectMeta := { Namespace := pod.Namespace
                       Name := pod.Name
                       Annotations := annots }
       Spec := { Volumes := []
                 Containers := containers
                 RestartPolicy := pod.Spec.RestartPolicy } }, none)
  else
    (rpod, none)

/-- Embeds `UpdatePod` (lines 159-168).  Translates, surfaces the
translation error; otherwise issues the remote update and — exactly as the
Go code (`_, err = ...Update(pd); return nil`) — discards the update call's
result and returns `nil`. -/
def UpdatePod (rc : RemoteCluster) (pod : Pod) : Option Err :=
  let t := TranslateToRemotePod rc pod
  match t.2 with
  | some err => some err
  | none =>
    let _update := rc.updatePod pod.Namespace t.1
    none

/-- The delete request `DeletePod` issues against the remote cluster
(namespace, name, and the `DeleteOptions` value passed to `Delete`),
reified so theorems can inspect it. -/
structure DeleteRequest where
  Namespace : String
  Name : String
  Options : DeleteOptions
deriving Repr, DecidableEq

/-- Embeds `DeletePod` (lines 171-175):
`return rc.CoreV1().Pods(pod.Namespace).Delete(pod.Name, &metav1.DeleteOptions{})`.
The options value passed to the remote call is a freshly constructed
zero-valued `DeleteOptions`. -/
def DeletePod (rc : RemoteCluster) (pod : Pod) : DeleteRequest × Option Err :=
  let opts : DeleteOptions := {}
  ({ Namespace := pod.Namespace, Name := pod.Name, Options := opts },
   rc.deletePod pod.Namespace pod.Name opts)

/-- Embeds `GetPod` (lines 178-191).  On any lookup error it returns the
`errdefs.NotFoundf("pod %s/%s is not found", ...)` error; otherwise the
fetched pod. -/
def GetPod (rc : RemoteCluster) (ns name : String) : Option Pod × Option Err :=
  let r := rc.getPod ns name
  match r.2 with
  | some _ => (none, some (Err.errdefsNotFound ("pod " ++ ns ++ "/" ++ name ++ " is not found")))
  | none => (some r.1, none)

/-- Embeds `GetPodStatus` (lines 205-218).  On any lookup error it returns
a zero status with phase `PodUnknown` and no error; otherwise the fetched
pod's status. -/
def GetPodStatus (rc : RemoteCluster) (ns name : String) : Option PodStatus × Option Err :=
  let r := rc.getPod ns name
  match r.2 with
  | some _ => (some { Phase := PodUnknown }, none)
  | none => (some r.1.Status, none)

/-- The field selector string the Go code builds with
`fmt.Sprintf("%s=%s", REMOTE_POD_ANNOTATION_NAME, REMOTE_POD_ANNOTATION_VALUE)`. -/
def ownershipFieldSelector : String := ownershipMarkerKey ++ "=" ++ ownershipMarkerValue

/-- Embeds `GetPods` (lines 221-245) together with Go's (pre-1.22) range
semantics, which the result type makes explicit.  The Go loop
`for _, pod := range list.Items { result = append(result, &pod) }` declares
ONE loop variable `pod` for the whole loop, reassigns it each iteration,
and appends its address, so every appended pointer is the same address.
Pointers are modelled as indices into a small heap (`List Pod`): the loop
variable lives at address 0, each iteration overwrites that cell with the
current item and appends address 0.  The result is the list of appended
addresses paired with the final heap. -/
def GetPods (rc : RemoteCluster) : Option (List Nat × List Pod) × Option Err :=
  let r := rc.listPods "" { FieldSelector := ownershipFieldSelector }
  match r.2 with
  | some e => (none, some e)
  | none =>
    let final := r.1.foldl
      (fun (acc : List Nat × List Pod) item => (acc.1 ++ [0], [item]))
      ([], [({} : Pod)])
    (some final, none)

/-- Dereference each returned pod pointer in the final heap: the pod values
a caller of `GetPods` actually observes. -/
def derefPods (r : List Nat × List Pod) : List Pod :=
  r.1.map (fun a => r.2.getD a {})

/-- Mirrors the `PocProvider` struct configuration fields. -/
structure PocProvider where
  nodeName : String := ""
  operatingSystem : String := ""
  internalIP : String := ""
  daemonEndpointPort : Int := 0
deriving Repr, DecidableEq

/-- Longest prefix of decimal digit characters. -/
def digitPrefix : List Char → List Char
  | [] => []
  | c :: cs => if c.isDigit then c :: digitPrefix cs else []

/-- Value of a list of decimal digit characters. -/
def digitsToNat (cs : List Char) : Nat :=
  cs.foldl (fun acc c => acc * 10 + (c.toNat - 48)) 0

/-- Embeds `resource.MustParse` for the plain-integer and binary-suffix
quantity strings the provider uses, yielding the quantity's value in base
units (`Gi` = 2^30, `Mi` = 2^20, `Ki` = 2^10). -/
def MustParse (s : String) : Nat :=
  let digits := digitPrefix s.data
  let suffix : String := { data := s.data.drop digits.length }
  let scale := if suffix = "Gi" then 1073741824
    else if suffix = "Mi" then 1048576
    else if suffix = "Ki" then 1024
    else 1
  digitsToNat digits * scale

/-- Embeds `Capacity` (lines 248-256).  The Go method has the remote client
global `rc` in scope but never consults it; the unused `RemoteCluster`
argument here records that. -/
def Capacity (_rc : RemoteCluster) (_p : PocProvider) : List (String × Nat) :=
  [("cpu", MustParse "100"), ("memory", MustParse "50Gi"), ("pods", MustParse "100")]

/-! ### Concrete fixtures used by witnesses and counterexamples -/

/-- A host pod with non-trivial whitelisted AND non-whitelisted container
fields, volumes, and a restart policy. -/
def podWeb : Pod :=
  { ObjectMeta := { Namespace := "default", Name := "web" }
    Spec := { Volumes := [{ Name := "data" }]
              Containers := [
                { Name := "c"
                  Image := "nginx"
                  Command := ["/bin/nginx"]
                  Args := ["-g", "daemon off;"]
                  Resources := { Limits := [("cpu", "1")], Requests := [("memory", "64Mi")] }
                  Ports := [{ Name := "http", ContainerPort := 80, Protocol := "TCP" }]
                  Env := [{ Name := "MODE", Value := "prod" }]
                  WorkingDir := "/srv"
                  VolumeMounts := [{ Name := "data", MountPath := "/data" }]
                  LivenessProbe := some { InitialDelaySeconds := 3, PeriodSeconds := 10 }
                  SecurityContext := some { Privileged := some true, RunAsUser := some 0 }
                  ImagePullPolicy := "Always"
                  Stdin := true
                  TTY := true }]
              RestartPolicy := "Always"
              NodeName := "virtual-kubelet"
              ServiceAccountName := "web-sa" } }

/-- A pod already present on the remote cluster under `default/web`. -/
def podWebRemote : Pod :=
  { ObjectMeta := { Namespace := "default", Name := "web"
                    Annotations := [(ownershipMarkerKey, ownershipMarkerValue)] }
    Spec := { Containers := [{ Name := "c", Image := "nginx" }]
              RestartPolicy := "Always" }
    Status := { Phase := "Running", PodIP := "10.0.0.7" } }

/-- Remote cluster on which every pod lookup yields the zero-valued pod and
no error (the pod does not exist and the client reports no failure). -/
def rcEmptyLookup : RemoteCluster :=
  { getPod := fun _ _ => ({}, none)
    updatePod := fun _ p => (p, none)
    deletePod := fun _ _ _ => none
    listPods := fun _ _ => ([], none) }

/-- Remote cluster that already holds `podWebRemote` at `default/web`. -/
def rcHasWeb : RemoteCluster :=
  { getPod := fun ns name =>
      if ns = "default" && name = "web" then (podWebRemote, none)
      else ({}, some (Err.apiNotFound "pods not found"))
    updatePod := fun _ p => (p, none)
    deletePod := fun _ _ _ => none
    listPods := fun _ _ => ([], none) }

/-- Remote cluster on which every pod lookup fails with a raw not-found
API error (and, as the real client does, a zero-valued pod). -/
def rcNotFound : RemoteCluster :=
  { getPod := fun _ name => ({}, some (Err.apiNotFound ("pods " ++ name ++ " not found")))
    updatePod := fun _ p => (p, none)
    deletePod := fun _ _ _ => none
    listPods := fun _ _ => ([], none) }

/-- Remote cluster on which every pod lookup fails with a network error:
the pod may well exist, the client just could not reach the API. -/
def rcNetworkDown : RemoteCluster :=
  { getPod := fun _ _ => ({}, some (Err.apiNetwork "connection refused"))
    updatePod := fun _ p => (p, some (Err.apiNetwork "connection refused"))
    deletePod := fun _ _ _ => some (Err.apiNetwork "connection refused")
    listPods := fun _ _ => ([], some (Err.apiNetwork "connection refused")) }

/-- Remote cluster on which lookups succeed (empty pod) but the update call
itself fails. -/
def rcUpdateFails : RemoteCluster :=
  { getPod := fun _ _ => ({}, none)
    updatePod := fun _ _ => ({}, some (Err.apiUnauthorized "update forbidden"))
    deletePod := fun _ _ _ => none
    listPods := fun _ _ => ([], none) }

/-- An ownership-marked pod `default/a` held by the remote cluster. -/
def podA : Pod :=
  { ObjectMeta := { Namespace := "default", Name := "a"
                    Annotations := [(ownershipMarkerKey, ownershipMarkerValue)] }
    Spec := { Containers := [{ Name := "c", Image := "nginx" }] } }

/-- An ownership-marked pod `default/b`, distinct from `podA`. -/
def podB : Pod :=
  { ObjectMeta := { Namespace := "default", Name := "b"
                    Annotations := [(ownershipMarkerKey, ownershipMarkerValue)] }
    Spec := { Containers := [{ Name := "c", Image := "redis" }] } }

/-- Remote cluster holding the two marked pods; its list endpoint serves
them only for an all-namespaces request carrying the ownership-marker field
selector, so a successful `GetPods` also certifies the selector sent. -/
def rcTwoPods : RemoteCluster :=
  { getPod := fun _ _ => ({}, some (Err.apiNotFound "pods not found"))
    updatePod := fun _ p => (p, none)
    deletePod := fun _ _ _ => none
    listPods := fun ns opts =>
      if ns = "" && opts.FieldSelector = "virtual-kube-type=poc" then ([podA, podB], none)
      else ([], some (Err.apiNetwork "unexpected list request")) }

/-- A pod carrying a caller-supplied deletion grace period of 5 seconds. -/
def podGrace : Pod :=
  { ObjectMeta := { Namespace := "default", Name := "web"
                    DeletionGracePeriodSeconds := some (5 : Int) } }

/-! ### Spec-side characterisation used by the C1 refinement theorem -/

/-- Written from the spec's whitelist description, to be compared with what
`TranslateToRemotePod` builds: a container whose name, image, command,
args, resources, ports, env and workingDir equal the host container's and
whose every other field is the Go zero value (the Lean field default). -/
def specWhitelistedContainer (c : Container) : Container :=
  { Name := c.Name
    Image := c.Image
    Command := c.Command
    Args := c.Args
    Resources := c.Resources
    Ports := c.Ports
    Env := c.Env
    WorkingDir := c.WorkingDir }

/-! ### Helper lemmas -/

/-- Go's `len(s) == 0` test is equivalent to `s == ""`. -/
theorem string_length_eq_zero_iff (s : String) : s.length = 0 ↔ s = "" := by
  constructor
  · intro h
    cases s with
    | mk data =>
      have hd : data = [] := List.length_eq_zero.mp h
      rw [hd]
  · intro h
    simp [h]

/-! ### Claims -/

/-- Claim C1: for every host pod for which no remote pod with the same
namespace and name exists (the lookup yields a pod with empty name),
`TranslateToRemotePod` returns a new remote pod whose annotations contain
the ownership marker virtual-kube-type=poc, whose volume list is empty,
whose namespace, name and restart policy equal the host pod's, and whose
containers are, in order, the host pod's containers restricted to exactly
the whitelisted fields with every other container field zero-valued. -/
theorem translate_new_pod_whitelist (rc : RemoteCluster) (pod : Pod)
    (h : (rc.getPod pod.Namespace pod.Name).1.Name = "") :
    ((TranslateToRemotePod rc pod).1.ObjectMeta.Annotations).lookup ownershipMarkerKey
        = some ownershipMarkerValue ∧
    (TranslateToRemotePod rc pod).1.Spec.Volumes = [] ∧
    (TranslateToRemotePod rc pod).1.Namespace = pod.Namespace ∧
    (TranslateToRemotePod rc pod).1.Name = pod.Name ∧
    (TranslateToRemotePod rc pod).1.Spec.RestartPolicy = pod.Spec.RestartPolicy ∧
    (TranslateToRemotePod rc pod).1.Spec.Containers
        = pod.Spec.Containers.map specWhitelistedContainer := by
  have hlen : (rc.getPod pod.Namespace pod.Name).1.Name.length = 0 := by
    simp [h]
  unfold TranslateToRemotePod
  rw [if_pos hlen]
  exact ⟨rfl, rfl, rfl, rfl, rfl, rfl⟩

/-- Claim C1 witness at a concrete host pod against a remote cluster whose
lookup yields the zero-valued pod. -/
theorem translate_new_pod_whitelist_witness :
    (rcEmptyLookup.getPod podWeb.Namespace podWeb.Name).1.Name = "" ∧
    (((TranslateToRemotePod rcEmptyLookup podWeb).1.ObjectMeta.Annotations).lookup
          ownershipMarkerKey = some ownershipMarkerValue ∧
      (TranslateToRemotePod rcEmptyLookup podWeb).1.Spec.Volumes = [] ∧
      (TranslateToRemotePod rcEmptyLookup podWeb).1.Namespace = podWeb.Namespace ∧
      (TranslateToRemotePod rcEmptyLookup podWeb).1.Name = podWeb.Name ∧
      (TranslateToRemotePod rcEmptyLookup podWeb).1.Spec.RestartPolicy
          = podWeb.Spec.RestartPolicy ∧
      (TranslateToRemotePod rcEmptyLookup podWeb).1.Spec.Containers
          = podWeb.Spec.Containers.map specWhitelistedContainer) :=
  ⟨by decide, translate_new_pod_whitelist rcEmptyLookup podWeb (by decide)⟩

/-- Claim C2: for every host pod whose (namespace, name) identifies an
already-existing remote pod (the lookup yields a pod with non-empty name),
`TranslateToRemotePod` returns that remote pod exactly as fetched, with nil
error. -/
theorem translate_existing_pod_unchanged (rc : RemoteCluster) (pod : Pod)
    (h : (rc.getPod pod.Namespace pod.Name).1.Name ≠ "") :
    TranslateToRemotePod rc pod = ((rc.getPod pod.Namespace pod.Name).1, none) := by
  have hlen : ¬ (rc.getPod pod.Namespace pod.Name).1.Name.length = 0 := by
    intro h0
    exact h ((string_length_eq_zero_iff _).mp h0)
  unfold TranslateToRemotePod
  simp [hlen]

/-- Claim C2 witness: translating `podWeb` against a cluster already
holding `podWebRemote` returns exactly `podWebRemote`. -/
theorem translate_existing_pod_unchanged_witness :
    (rcHasWeb.getPod podWeb.Namespace podWeb.Name).1.Name ≠ "" ∧
    TranslateToRemotePod rcHasWeb podWeb = ((rcHasWeb.getPod podWeb.Namespace podWeb.Name).1, none) :=
  ⟨by decide, translate_existing_pod_unchanged rcHasWeb podWeb (by decide)⟩

/-- Claim C3 counterexample: the lookup fails with a network error, yet
`TranslateToRemotePod` does not return that error — it returns nil (the Go
code discards the lookup error with `rpod, _ = ...Get(...)`). -/
theorem translate_error_not_propagated_cex :
    (rcNetworkDown.getPod podWeb.Namespace podWeb.Name).2
        = some (Err.apiNetwork "connection refused") ∧
    (TranslateToRemotePod rcNetworkDown podWeb).2
        ≠ some (Err.apiNetwork "connection refused") ∧
    (TranslateToRemotePod rcNetworkDown podWeb).2 = none := by
  refine ⟨rfl, ?_, rfl⟩
  decide

/-- Claim C3 amended: `TranslateToRemotePod` never returns an error at all —
the existence-lookup error is discarded, and the returned error is nil on
every input (on lookup failure the zero-valued fetched pod has an empty
name, so a fresh remote pod is built and returned with nil error). -/
theorem translate_never_errors (rc : RemoteCluster) (pod : Pod) :
    (TranslateToRemotePod rc pod).2 = none := by
  unfold TranslateToRemotePod
  by_cases hlen : (rc.getPod pod.Namespace pod.Name).1.Name.length = 0 <;> simp [hlen]

/-- Claim C4: when the remote lookup of (namespace, name) fails with
not-found, `GetPod` returns the semantic errdefs NotFound error — not the
raw lookup error — and that error kind is recognised by `Err.IsNotFound`
while no raw remote API error is, so callers can distinguish it. -/
theorem getPod_notfound_semantic (rc : RemoteCluster) (ns name m : String) (p : Pod)
    (h : rc.getPod ns name = (p, some (Err.apiNotFound m))) :
    (GetPod rc ns name).2
        = some (Err.errdefsNotFound ("pod " ++ ns ++ "/" ++ name ++ " is not found")) ∧
    (GetPod rc ns name).2 ≠ some (Err.apiNotFound m) ∧
    (Err.errdefsNotFound ("pod " ++ ns ++ "/" ++ name ++ " is not found")).IsNotFound = true ∧
    (∀ msg, (Err.apiNotFound msg).IsNotFound = false ∧
      (Err.apiNetwork msg).IsNotFound = false ∧
      (Err.apiUnauthorized msg).IsNotFound = false) := by
  refine ⟨?_, ?_, rfl, fun msg => ⟨rfl, rfl, rfl⟩⟩ <;> simp [GetPod, h]

/-- Claim C4 witness on a cluster whose lookup fails with a raw not-found
error for `default/missing`. -/
theorem getPod_notfound_semantic_witness :
    rcNotFound.getPod "default" "missing"
        = ({}, some (Err.apiNotFound "pods missing not found")) ∧
    ((GetPod rcNotFound "default" "missing").2
          = some (Err.errdefsNotFound "pod default/missing is not found") ∧
      (GetPod rcNotFound "default" "missing").2
          ≠ some (Err.apiNotFound "pods missing not found") ∧
      (Err.errdefsNotFound "pod default/missing is not found").IsNotFound = true ∧
      (∀ msg, (Err.apiNotFound msg).IsNotFound = false ∧
        (Err.apiNetwork msg).IsNotFound = false ∧
        (Err.apiUnauthorized msg).IsNotFound = false)) :=
  ⟨by decide, getPod_notfound_semantic rcNotFound "default" "missing"
    "pods missing not found" {} (by decide)⟩

/-- Claim C5: when the remote lookup fails with not-found, `GetPodStatus`
returns a successful result whose status phase is Unknown, while `GetPod`
errors in the same situation (the asymmetry the spec records). -/
theorem getPodStatus_notfound_unknown (rc : RemoteCluster) (ns name m : String) (p : Pod)
    (h : rc.getPod ns name = (p, some (Err.apiNotFound m))) :
    GetPodStatus rc ns name = (some { Phase := "Unknown" }, none) ∧
    (GetPod rc ns name).2 ≠ none := by
  constructor
  · simp [GetPodStatus, h, PodUnknown]
  · simp [GetPod, h]

/-- Claim C5 witness on the same not-found cluster as the C4 witness. -/
theorem getPodStatus_notfound_unknown_witness :
    rcNotFound.getPod "default" "missing"
        = ({}, some (Err.apiNotFound "pods missing not found")) ∧
    (GetPodStatus rcNotFound "default" "missing" = (some { Phase := "Unknown" }, none) ∧
      (GetPod rcNotFound "default" "missing").2 ≠ none) :=
  ⟨by decide, getPodStatus_notfound_unknown rcNotFound "default" "missing"
    "pods missing not found" {} (by decide)⟩

/-- Claim C6: `UpdatePod` returns the translation error when
`TranslateToRemotePod` fails, and when translation succeeds it returns nil
regardless of the remote update call's own outcome (the update error is
swallowed; the quantification over `rc` covers every possible result of
`rc.updatePod`). -/
theorem updatePod_swallows_update_error (rc : RemoteCluster) (pod : Pod) :
    (∀ e, (TranslateToRemotePod rc pod).2 = some e → UpdatePod rc pod = some e) ∧
    ((TranslateToRemotePod rc pod).2 = none → UpdatePod rc pod = none) := by
  constructor
  · intro e he
    simp [UpdatePod, he]
  · intro hn
    simp [UpdatePod, hn]

/-- Claim C6 witness: on a cluster whose update call fails, `UpdatePod`
still returns nil. -/
theorem updatePod_swallows_update_error_witness :
    (TranslateToRemotePod rcUpdateFails podWeb).2 = none ∧
    UpdatePod rcUpdateFails podWeb = none :=
  ⟨by decide, (updatePod_swallows_update_error rcUpdateFails podWeb).2 (by decide)⟩

/-- Claim C10: `GetPod` and `GetPodStatus` branch only on whether the
lookup returned any error at all — for EVERY error `e`, of any kind,
`GetPod` yields the NotFound error and `GetPodStatus` yields the successful
phase-Unknown status, so the outputs carry no information about `e`. -/
theorem lookup_error_collapse (rc : RemoteCluster) (ns name : String) (p : Pod) (e : Err)
    (h : rc.getPod ns name = (p, some e)) :
    GetPod rc ns name
        = (none, some (Err.errdefsNotFound ("pod " ++ ns ++ "/" ++ name ++ " is not found"))) ∧
    GetPodStatus rc ns name = (some { Phase := "Unknown" }, none) := by
  constructor
  · simp [GetPod, h]
  · simp [GetPodStatus, h, PodUnknown]

/-- Claim C10 witness: a network failure — the pod may exist — is reported
by `GetPod` as NotFound and by `GetPodStatus` as a successful Unknown
status, exactly as a genuine absence would be. -/
theorem lookup_error_collapse_witness :
    rcNetworkDown.getPod "default" "web"
        = ({}, some (Err.apiNetwork "connection refused")) ∧
    (GetPod rcNetworkDown "default" "web"
          = (none, some (Err.errdefsNotFound "pod default/web is not found")) ∧
      GetPodStatus rcNetworkDown "default" "web" = (some { Phase := "Unknown" }, none)) :=
  ⟨by decide, lookup_error_collapse rcNetworkDown "default" "web" {}
    (Err.apiNetwork "connection refused") (by decide)⟩

/-- Claim C7, evaluated at the failing input: the remote list (served only
under the ownership-marker field selector) returns the two distinct pods
`[podA, podB]`, yet `GetPods` appends the address of the single shared loop
variable twice — both returned pointers are address 0 — and dereferencing
them yields `[podB, podB]`, not independently-owned copies in the order
received. -/
theorem getPods_aliases_loop_variable :
    (GetPods rcTwoPods).2 = none ∧
    (GetPods rcTwoPods).1 = some ([0, 0], [podB]) ∧
    ((GetPods rcTwoPods).1.map derefPods) = some [podB, podB] ∧
    ((GetPods rcTwoPods).1.map derefPods) ≠ some [podA, podB] ∧
    podA ≠ podB := by
  refine ⟨rfl, by decide, by decide, by decide, by decide⟩

/-- Claim C8 counterexample: the caller supplies a deletion grace period of
5 seconds on the pod, yet the delete request `DeletePod` issues carries the
freshly constructed zero-valued `DeleteOptions` — the grace period is not
passed through. -/
theorem deletePod_drops_caller_options_cex :
    podGrace.ObjectMeta.DeletionGracePeriodSeconds = some 5 ∧
    (DeletePod rcEmptyLookup podGrace).1.Options = ({} : DeleteOptions) ∧
    (DeletePod rcEmptyLookup podGrace).1.Options.GracePeriodSeconds ≠ some 5 := by
  refine ⟨rfl, rfl, by decide⟩

/-- Claim C8 amended: `DeletePod` issues a remote delete for the pod's
namespace and name with empty default delete options, and returns the
remote delete call's result; caller-supplied delete options (such as the
pod's deletion grace period) are not forwarded. -/
theorem deletePod_empty_options (rc : RemoteCluster) (pod : Pod) :
    (DeletePod rc pod).1
        = { Namespace := pod.Namespace, Name := pod.Name, Options := {} } ∧
    (DeletePod rc pod).2 = rc.deletePod pod.Namespace pod.Name {} := by
  exact ⟨rfl, rfl⟩

/-- Claim C9: `Capacity` returns exactly {cpu: 100, memory: 50Gi (i.e.
53687091200 bytes), pods: 100} on every call, for every remote-cluster
state and every provider configuration. -/
theorem capacity_fixed (rc : RemoteCluster) (p : PocProvider) :
    Capacity rc p = [("cpu", 100), ("memory", 53687091200), ("pods", 100)] := by
  simp [Capacity, MustParse, digitPrefix, digitsToNat]

end Poc
